import Mathlib

/-
Verification of the sequential demo-runner in claudeCodeDemo.py and
simpleClaudeDemo.py. Both files contain a textually identical runner loop
(claudeCodeDemo.py lines 259-269, simpleClaudeDemo.py lines 168-178):

    successful = 0
    for name, demo_func in demos:
        try:
            result = await demo_func()
            if result:
                successful += 1
        except Exception as e:
            print(f"{name} demo failed: {e}")
    print(f"Completed {successful}/{len(demos)} demos successfully!")

A demo operation is a zero-argument coroutine that either returns a Bool,
raises an ordinary exception (a subclass of Exception, caught by the loop),
or raises KeyboardInterrupt (a BaseException, NOT caught by `except
Exception` and therefore propagating out of the loop to main). Each
operation also prints lines while it runs; the embedding records a run as
the ordered list of invoked labels, the list of printed lines, and the
success counter.
-/

/-- How an operation settles in Python terms: it raised either an ordinary
exception (subclass of Exception, message attached) or KeyboardInterrupt,
which does not derive from Exception. -/
inductive Fault where
  | exc (msg : String)
  | interrupt
deriving DecidableEq, Repr

/-- Outcome of awaiting one demo coroutine: a Bool return or a raised fault. -/
inductive Outcome where
  | ok (b : Bool)
  | fault (f : Fault)
deriving DecidableEq, Repr

/-- A WorkUnit is one (name, demo_func) pair of the demos list. The
zero-argument operation is modelled by what it does when invoked: the lines
it prints while running and how it settles. -/
structure WorkUnit where
  label : String
  printed : List String
  outcome : Outcome
deriving DecidableEq, Repr

/-- Observable state threaded through the runner loop: labels of operations
invoked so far (in invocation order), every line printed so far, and the
`successful` counter. -/
structure Trace where
  invoked : List String
  output : List String
  successful : Nat
deriving DecidableEq, Repr

/-- Result of the runner loop: it either reaches the line after the for
statement (completed) or a KeyboardInterrupt escapes mid-loop (interrupted). -/
inductive LoopResult where
  | completed (t : Trace)
  | interrupted (t : Trace)
deriving DecidableEq, Repr

/-- The diagnostic the outer except-clause prints:
f-string "❌ {name} demo failed: {e}" at claudeCodeDemo.py:266 and
simpleClaudeDemo.py:175. -/
def diagLine (name msg : String) : String :=
  "❌ " ++ name ++ " demo failed: " ++ msg

/-- The for-loop of run_all_demos (claudeCodeDemo.py:260-266 and
simpleClaudeDemo.py:169-175). Each iteration awaits the operation (its
prints are appended and its label recorded), then: a true return increments
`successful`; a false return changes nothing; an Exception is caught by the
except-clause which prints the tagged diagnostic and continues; a
KeyboardInterrupt is not matched by `except Exception` and aborts the loop. -/
def runLoop (t : Trace) : List WorkUnit → LoopResult
  | [] => .completed t
  | u :: rest =>
    let t1 : Trace :=
      { invoked := t.invoked ++ [u.label]
        output := t.output ++ u.printed
        successful := t.successful }
    match u.outcome with
    | .ok true => runLoop { t1 with successful := t1.successful + 1 } rest
    | .ok false => runLoop t1 rest
    | .fault (.exc m) =>
        runLoop { t1 with output := t1.output ++ [diagLine u.label m] } rest
    | .fault .interrupt => .interrupted t1

/-- The runner state before the first iteration: nothing invoked, nothing
printed by the loop, successful = 0 (claudeCodeDemo.py:259). -/
def initialTrace : Trace := ⟨[], [], 0⟩

/-- Lines one loop iteration adds for a unit: the operation prints, then the
except-clause diagnostic when the operation raised an ordinary exception. -/
def unitOutput (u : WorkUnit) : List String :=
  u.printed ++
    match u.outcome with
    | .fault (.exc m) => [diagLine u.label m]
    | _ => []

/-- Number of units of a list whose operation returns True: what the
`successful` counter tallies. -/
def countSucc (units : List WorkUnit) : Nat :=
  units.countP (fun u => decide (u.outcome = .ok true))

/-- Successful counter carried by a loop result. -/
def LoopResult.succ : LoopResult → Nat
  | .completed t => t.successful
  | .interrupted t => t.successful

example : runLoop initialTrace [⟨"A", [], .ok true⟩, ⟨"B", [], .ok false⟩] =
    .completed ⟨["A", "B"], [], 1⟩ := by decide

example : runLoop initialTrace [⟨"A", ["x"], .fault (.exc "boom")⟩] =
    .completed ⟨["A"], ["x", "❌ A demo failed: boom"], 0⟩ := by decide

example : runLoop initialTrace [⟨"A", [], .fault .interrupt⟩, ⟨"B", [], .ok true⟩] =
    .interrupted ⟨["A"], [], 0⟩ := by decide

/-- Result of a full run_all_demos call: an early return when no API key is
found (claudeCodeDemo.py:244-245, simpleClaudeDemo.py:146-147), normal
completion carrying the summary total len(demos), or an escaping
KeyboardInterrupt. -/
inductive RunOutcome where
  | earlyReturn (t : Trace)
  | completed (t : Trace) (total : Nat)
  | interrupted (t : Trace)
deriving DecidableEq, Repr

/-- The separator both scripts print: the "=" character repeated 50 times. -/
def sepLine : String :=
  String.mk (List.replicate 50 '=')

/-- The summary f-string "Completed {successful}/{len(demos)} demos
successfully!" (claudeCodeDemo.py:269, simpleClaudeDemo.py:178). -/
def summaryLine (successful total : Nat) : String :=
  "Completed " ++ toString successful ++ "/" ++ toString total ++
    " demos successfully!"

/-- Decides whether a printed line is a run summary: it begins with the
literal text "Completed " that only the summary f-string emits. Stated on
the underlying character list so that it composes under concatenation. -/
def isSummaryLine (s : String) : Bool :=
  List.isPrefixOf "Completed ".data s.data

/-- Lines setup_api_key prints (claudeCodeDemo.py:26-40): the success
confirmation when ANTHROPIC_API_KEY is set, the two-line complaint
otherwise. -/
def setup_api_key_out (found : Bool) : List String :=
  if found then ["✓ API key configured from .env file"]
  else ["❌ No API key found in .env file",
        "Please set ANTHROPIC_API_KEY in ib_invoice_ops/.env"]

namespace ClaudeCodeDemo

/-- Everything run_all_demos of claudeCodeDemo.py (lines 237-269) prints and
does, for the environment where the anthropic SDK imports cleanly
(install_requirements prints its available-notice, line 19) and the claude
CLI is installed (check_claude_cli prints its confirmation, line 227); both
helpers are credential/boilerplate outside the spec core and only
contribute fixed lines here. `found` is whether setup_api_key finds
ANTHROPIC_API_KEY: when it does not, the function returns at line 245
before the demos list is ever touched. Otherwise the loop runs and the
separator plus summary are printed (lines 268-269). -/
def run_all_demos (found : Bool) (units : List WorkUnit) : RunOutcome :=
  let pre : List String :=
    ["Claude API Demo Starting...", sepLine, "✓ Anthropic SDK available"] ++
      setup_api_key_out found
  if found then
    let pre := pre ++ ["✓ Claude CLI is installed"]
    match runLoop ⟨[], pre, 0⟩ units with
    | .completed t =>
        .completed
          { t with output :=
              t.output ++ ["\n" ++ sepLine, summaryLine t.successful units.length] }
          units.length
    | .interrupted t => .interrupted t
  else
    .earlyReturn ⟨[], pre, 0⟩

/-- The main entry point (claudeCodeDemo.py:271-278): it awaits
run_all_demos; a KeyboardInterrupt escaping the runner is caught here and
the interruption notice printed (line 276). The value is the full list of
printed lines of the process. -/
def main (found : Bool) (units : List WorkUnit) : List String :=
  match run_all_demos found units with
  | .earlyReturn t => t.output
  | .completed t _ => t.output
  | .interrupted t => t.output ++ ["\n\nDemo interrupted by user"]

end ClaudeCodeDemo

namespace SimpleClaudeDemo

/-- Everything run_all_demos of simpleClaudeDemo.py (lines 140-178) prints
and does, for the environment where the anthropic SDK imports cleanly (line
152). Here setup_api_key runs first (line 146; its .env complaint names
plain ".env", line 24) and a missing key returns at line 147 before the SDK
check or the demos list. -/
def run_all_demos (found : Bool) (units : List WorkUnit) : RunOutcome :=
  let pre : List String :=
    ["Simple Claude API Demo Starting...", sepLine] ++
      (if found then ["✓ API key configured from .env file"]
       else ["❌ No API key found in .env file",
             "Please set ANTHROPIC_API_KEY in .env"])
  if found then
    let pre := pre ++ ["✓ Anthropic SDK available"]
    match runLoop ⟨[], pre, 0⟩ units with
    | .completed t =>
        .completed
          { t with output :=
              t.output ++ ["\n" ++ sepLine, summaryLine t.successful units.length] }
          units.length
    | .interrupted t => .interrupted t
  else
    .earlyReturn ⟨[], pre, 0⟩

/-- The main entry point (simpleClaudeDemo.py:180-187), printing the
interruption notice when a KeyboardInterrupt escapes the runner. -/
def main (found : Bool) (units : List WorkUnit) : List String :=
  match run_all_demos found units with
  | .earlyReturn t => t.output
  | .completed t _ => t.output
  | .interrupted t => t.output ++ ["\n\nDemo interrupted by user"]

end SimpleClaudeDemo

/-- How one API call inside a demo body settles: the completion service
returns text, raises an ordinary exception with a message, or the await is
interrupted. -/
inductive ApiResult where
  | ok (text : String)
  | err (msg : String)
  | interrupt
deriving DecidableEq, Repr

/-- demo_hello_world (claudeCodeDemo.py:42-62) as a function of its one API
call result: it prints its banner, then either prints the response and
returns True, or its own except-clause prints "❌ Error: {e}" (line 60) and
it returns False; a KeyboardInterrupt is not matched by `except Exception`
and escapes the demo. -/
def demo_hello_world (r : ApiResult) : List String × Outcome :=
  let banner := "\n=== Demo 1: Hello World ==="
  match r with
  | .ok text => ([banner, "Claude: " ++ text], .ok true)
  | .err m => ([banner, "❌ Error: " ++ m], .ok false)
  | .interrupt => ([banner], .fault .interrupt)

/-- The ("Hello World", demo_hello_world) work unit of the demos list
(claudeCodeDemo.py:251) in a run where its API call fails with message
"boom". -/
def hwFailUnit : WorkUnit :=
  { label := "Hello World"
    printed := (demo_hello_world (.err "boom")).1
    outcome := (demo_hello_world (.err "boom")).2 }

/-- Decides whether the pattern occurs as a contiguous run inside a
character list. -/
def listContains (pat : List Char) : List Char → Bool
  | [] => List.isPrefixOf pat []
  | c :: cs => List.isPrefixOf pat (c :: cs) || listContains pat cs

/-- Decides whether `pat` occurs as a contiguous substring of `s`. -/
def containsSub (s pat : String) : Bool :=
  listContains pat.data s.data

example : containsSub "❌ Error: boom" "❌" = true := by decide
example : containsSub "❌ Error: boom" "Hello World" = false := by decide
example : containsSub "\n=== Demo 1: Hello World ===" "Hello World" = true := by decide
example : isSummaryLine (summaryLine 0 0) = true := by decide
example : summaryLine 0 0 = "Completed 0/0 demos successfully!" := by decide
example : isSummaryLine sepLine = false := by decide

theorem runLoop_append (p q : List WorkUnit) (t t' : Trace)
    (hp : runLoop t p = .completed t') :
    runLoop t (p ++ q) = runLoop t' q := by
  induction p generalizing t with
  | nil =>
    simp only [runLoop, LoopResult.completed.injEq] at hp
    rw [List.nil_append, hp]
  | cons u us ih =>
    cases hout : u.outcome with
    | ok b =>
      cases b with
      | true =>
        simp only [List.cons_append, runLoop, hout] at hp ⊢
        exact ih _ hp
      | false =>
        simp only [List.cons_append, runLoop, hout] at hp ⊢
        exact ih _ hp
    | fault f =>
      cases f with
      | exc m =>
        simp only [List.cons_append, runLoop, hout] at hp ⊢
        exact ih _ hp
      | interrupt =>
        simp only [runLoop, hout] at hp
        exact LoopResult.noConfusion hp

theorem runLoop_eq_completed (units : List WorkUnit)
    (h : ∀ u ∈ units, u.outcome ≠ .fault .interrupt) (t : Trace) :
    runLoop t units = .completed
      ⟨t.invoked ++ units.map WorkUnit.label,
       t.output ++ (units.map unitOutput).flatten,
       t.successful + countSucc units⟩ := by
  induction units generalizing t with
  | nil => simp [runLoop, countSucc]
  | cons u us ih =>
    have hus : ∀ v ∈ us, v.outcome ≠ .fault .interrupt := by
      intro v hv; exact h v (List.mem_cons_of_mem _ hv)
    cases hout : u.outcome with
    | ok b =>
      cases b with
      | true =>
        simp only [runLoop, hout, ih hus, LoopResult.completed.injEq, Trace.mk.injEq]
        refine ⟨by simp, by simp [unitOutput, hout, List.append_assoc], ?_⟩
        simp only [countSucc, List.countP_cons, hout]
        simp; omega
      | false =>
        simp only [runLoop, hout, ih hus, LoopResult.completed.injEq, Trace.mk.injEq]
        refine ⟨by simp, by simp [unitOutput, hout, List.append_assoc], ?_⟩
        simp only [countSucc, List.countP_cons, hout]
        simp
    | fault f =>
      cases f with
      | exc m =>
        simp only [runLoop, hout, ih hus, LoopResult.completed.injEq, Trace.mk.injEq]
        refine ⟨by simp, by simp [unitOutput, hout, List.append_assoc], ?_⟩
        simp only [countSucc, List.countP_cons, hout]
        simp
      | interrupt =>
        exact absurd hout (h u (List.mem_cons_self _ _))

theorem runLoop_succ_le (units : List WorkUnit) (t : Trace) :
    (runLoop t units).succ ≤ t.successful + units.length := by
  induction units generalizing t with
  | nil => simp [runLoop, LoopResult.succ]
  | cons u us ih =>
    cases hout : u.outcome with
    | ok b =>
      cases b with
      | true =>
        simp only [runLoop, hout]
        refine le_trans (ih _) ?_
        simp [Nat.add_assoc, Nat.add_comm 1 us.length]
      | false =>
        simp only [runLoop, hout]
        refine le_trans (ih _) ?_
        simp
    | fault f =>
      cases f with
      | exc m =>
        simp only [runLoop, hout]
        refine le_trans (ih _) ?_
        simp
      | interrupt =>
        simp only [runLoop, hout, LoopResult.succ]
        omega

theorem runLoop_interrupt_at (p q : List WorkUnit) (u : WorkUnit) (t : Trace)
    (hp : ∀ v ∈ p, v.outcome ≠ .fault .interrupt)
    (hu : u.outcome = .fault .interrupt) :
    runLoop t (p ++ u :: q) = .interrupted
      ⟨t.invoked ++ p.map WorkUnit.label ++ [u.label],
       t.output ++ (p.map unitOutput).flatten ++ u.printed,
       t.successful + countSucc p⟩ := by
  rw [runLoop_append p (u :: q) t _ (runLoop_eq_completed p hp t)]
  simp [runLoop, hu]

theorem isSummaryLine_diagLine (l m : String) :
    isSummaryLine (diagLine l m) = false := by
  simp [isSummaryLine, diagLine, String.data_append, List.isPrefixOf]

theorem isPrefixOf_append_self (l r : List Char) :
    List.isPrefixOf l (l ++ r) = true := by
  induction l with
  | nil => simp [List.isPrefixOf]
  | cons a as ih => simp [List.isPrefixOf, ih]

theorem isSummaryLine_summaryLine (s n : Nat) :
    isSummaryLine (summaryLine s n) = true := by
  simp only [isSummaryLine, summaryLine, String.data_append]
  rw [List.append_assoc, List.append_assoc, List.append_assoc]
  exact isPrefixOf_append_self _ _

theorem countP_summary_flatten (us : List WorkUnit)
    (h : ∀ v ∈ us, ∀ l ∈ v.printed, isSummaryLine l = false) :
    ((us.map unitOutput).flatten.countP isSummaryLine) = 0 := by
  rw [List.countP_eq_zero]
  intro a ha
  rw [List.mem_flatten] at ha
  obtain ⟨l, hl, hal⟩ := ha
  rw [List.mem_map] at hl
  obtain ⟨v, hv, rfl⟩ := hl
  rcases hvo : v.outcome with b | f
  · simp [unitOutput, hvo] at hal
    simp [h v hv a hal]
  · cases f with
    | exc m =>
      simp [unitOutput, hvo] at hal
      rcases hal with hal | rfl
      · simp [h v hv a hal]
      · simp [isSummaryLine_diagLine]
    | interrupt =>
      simp [unitOutput, hvo] at hal
      simp [h v hv a hal]

theorem cc_run_eq (units : List WorkUnit)
    (h : ∀ u ∈ units, u.outcome ≠ .fault .interrupt) :
    ClaudeCodeDemo.run_all_demos true units = .completed
      ⟨units.map WorkUnit.label,
       ["Claude API Demo Starting...", sepLine, "✓ Anthropic SDK available",
        "✓ API key configured from .env file", "✓ Claude CLI is installed"] ++
         (units.map unitOutput).flatten ++
         ["\n" ++ sepLine, summaryLine (countSucc units) units.length],
       countSucc units⟩ units.length := by
  simp only [ClaudeCodeDemo.run_all_demos, setup_api_key_out, if_true]
  rw [runLoop_eq_completed units h]
  simp [List.append_assoc]

/-- C1: with no interrupt delivered, the runner loop invokes every supplied
unit exactly once, in the supplied order (the invocation sequence equals the
label sequence of the input), no matter which units failed, and the full
runner reports total = N = length of the supplied sequence. -/
theorem c1_each_unit_attempted_once_in_order (units : List WorkUnit)
    (h : ∀ u ∈ units, u.outcome ≠ .fault .interrupt) :
    runLoop initialTrace units =
      .completed ⟨units.map WorkUnit.label, (units.map unitOutput).flatten,
        countSucc units⟩ ∧
    ∃ t, ClaudeCodeDemo.run_all_demos true units = .completed t units.length ∧
      t.invoked = units.map WorkUnit.label := by
  constructor
  · simpa [initialTrace] using runLoop_eq_completed units h initialTrace
  · exact ⟨_, cc_run_eq units h, rfl⟩

/-- Witness instantiating C1 at a three-unit batch in which the second unit
returns False and the third raises. -/
theorem c1_witness :
    runLoop initialTrace
        [⟨"A", [], .ok true⟩, ⟨"B", [], .ok false⟩, ⟨"C", [], .fault (.exc "x")⟩] =
      .completed ⟨["A", "B", "C"], ["❌ C demo failed: x"], 1⟩ ∧
    ∃ t, ClaudeCodeDemo.run_all_demos true
        [⟨"A", [], .ok true⟩, ⟨"B", [], .ok false⟩, ⟨"C", [], .fault (.exc "x")⟩] =
      .completed t 3 ∧ t.invoked = ["A", "B", "C"] := by
  have h := c1_each_unit_attempted_once_in_order
    [⟨"A", [], .ok true⟩, ⟨"B", [], .ok false⟩, ⟨"C", [], .fault (.exc "x")⟩]
    (by decide)
  simpa [unitOutput, countSucc] using h

/-- C2: the successful counter starts at zero, after any prefix of the batch
it is at most the number of units attempted so far, one further unit raises
it by at most one, and the final counter never exceeds the batch length. -/
theorem c2_succeeded_never_exceeds_attempted (units p : List WorkUnit)
    (u : WorkUnit) (t t' : Trace)
    (hp : runLoop initialTrace p = .completed t)
    (hpu : runLoop initialTrace (p ++ [u]) = .completed t') :
    initialTrace.successful = 0 ∧
    t.successful ≤ p.length ∧
    t'.successful ≤ t.successful + 1 ∧
    (runLoop initialTrace units).succ ≤ units.length := by
  refine ⟨rfl, ?_, ?_, ?_⟩
  · have hb := runLoop_succ_le p initialTrace
    rw [hp] at hb
    simpa [initialTrace, LoopResult.succ] using hb
  · have h2 := runLoop_append p [u] initialTrace t hp
    rw [h2] at hpu
    have hb := runLoop_succ_le [u] t
    rw [hpu] at hb
    simpa [LoopResult.succ] using hb
  · have hb := runLoop_succ_le units initialTrace
    simpa [initialTrace] using hb

/-- Witness instantiating C2 at the prefix consisting of one succeeding unit
followed by one failing unit. -/
theorem c2_witness :
    initialTrace.successful = 0 ∧
    (Trace.mk ["A"] [] 1).successful ≤ 1 ∧
    (Trace.mk ["A", "B"] [] 1).successful ≤ (Trace.mk ["A"] [] 1).successful + 1 ∧
    (runLoop initialTrace [⟨"A", [], .ok true⟩, ⟨"B", [], .ok false⟩]).succ ≤ 2 := by
  have h := c2_succeeded_never_exceeds_attempted
    [⟨"A", [], .ok true⟩, ⟨"B", [], .ok false⟩]
    [⟨"A", [], .ok true⟩] ⟨"B", [], .ok false⟩
    ⟨["A"], [], 1⟩ ⟨["A", "B"], [], 1⟩ (by decide) (by decide)
  simpa using h

/-- C3: a unit raising an uncaught ordinary exception is caught by the outer
layer of the runner: the run still completes, the tagged diagnostic for that
unit is printed, every unit before and after it is invoked in order, and the
raising unit contributes nothing to the success count. -/
theorem c3_uncaught_fault_isolated (p q : List WorkUnit) (u : WorkUnit)
    (m : String) (hu : u.outcome = .fault (.exc m))
    (h : ∀ v ∈ p ++ u :: q, v.outcome ≠ .fault .interrupt) :
    ∃ t, runLoop initialTrace (p ++ u :: q) = .completed t ∧
      t.invoked = p.map WorkUnit.label ++ u.label :: q.map WorkUnit.label ∧
      diagLine u.label m ∈ t.output ∧
      t.successful = countSucc p + countSucc q := by
  refine ⟨_, runLoop_eq_completed _ h initialTrace, ?_, ?_, ?_⟩
  · simp [initialTrace]
  · have hd : diagLine u.label m ∈ unitOutput u := by simp [unitOutput, hu]
    simp only [initialTrace, List.nil_append]
    exact List.mem_flatten.mpr ⟨unitOutput u, List.mem_map_of_mem _ (by simp), hd⟩
  · simp [initialTrace, countSucc, List.countP_append, List.countP_cons, hu]

/-- Witness instantiating C3 with the raising unit between two returning
units. -/
theorem c3_witness :
    ∃ t, runLoop initialTrace
        [⟨"A", [], .ok true⟩, ⟨"B", [], .fault (.exc "boom")⟩, ⟨"C", [], .ok true⟩] =
      .completed t ∧
      t.invoked = ["A"].map id ++ "B" :: ["C"] ∧
      diagLine "B" "boom" ∈ t.output ∧
      t.successful = countSucc [⟨"A", [], .ok true⟩] + countSucc [⟨"C", [], .ok true⟩] := by
  have h := c3_uncaught_fault_isolated [⟨"A", [], .ok true⟩] [⟨"C", [], .ok true⟩]
    ⟨"B", [], .fault (.exc "boom")⟩ "boom" rfl (by decide)
  simpa using h

/-- C4: when every operation returns True the final counter equals N, both
in the loop and in the full runner report, and re-running the identical
batch produces the identical report. -/
theorem c4_all_success_count (units : List WorkUnit)
    (h : ∀ u ∈ units, u.outcome = .ok true) :
    runLoop initialTrace units =
      .completed ⟨units.map WorkUnit.label, (units.map unitOutput).flatten,
        units.length⟩ ∧
    (∃ t, ClaudeCodeDemo.run_all_demos true units = .completed t units.length ∧
      t.successful = units.length) ∧
    ClaudeCodeDemo.run_all_demos true units =
      ClaudeCodeDemo.run_all_demos true units := by
  have hni : ∀ u ∈ units, u.outcome ≠ .fault .interrupt := by
    intro u hu
    rw [h u hu]
    intro hc
    exact Outcome.noConfusion hc
  have hcount : countSucc units = units.length := by
    rw [countSucc, List.countP_eq_length]
    intro u hu
    simp [h u hu]
  refine ⟨?_, ?_, rfl⟩
  · have hc := runLoop_eq_completed units hni initialTrace
    rw [hcount] at hc
    simpa [initialTrace] using hc
  · exact ⟨_, cc_run_eq units hni, hcount⟩

/-- Witness instantiating C4 at a two-unit all-success batch. -/
theorem c4_witness :
    runLoop initialTrace [⟨"A", [], .ok true⟩, ⟨"B", [], .ok true⟩] =
      .completed ⟨["A", "B"], [], 2⟩ ∧
    (∃ t, ClaudeCodeDemo.run_all_demos true [⟨"A", [], .ok true⟩, ⟨"B", [], .ok true⟩] =
      .completed t 2 ∧ t.successful = 2) ∧
    ClaudeCodeDemo.run_all_demos true [⟨"A", [], .ok true⟩, ⟨"B", [], .ok true⟩] =
      ClaudeCodeDemo.run_all_demos true [⟨"A", [], .ok true⟩, ⟨"B", [], .ok true⟩] := by
  have h := c4_all_success_count [⟨"A", [], .ok true⟩, ⟨"B", [], .ok true⟩] (by decide)
  simpa [unitOutput] using h

/-- C5: when every unit fails, by returning False or by raising an ordinary
exception, the runner still completes (no fault escapes it), the report
total is N, and the success count is 0. -/
theorem c5_all_fail_count_zero (units : List WorkUnit)
    (h : ∀ u ∈ units, u.outcome = .ok false ∨ ∃ m, u.outcome = .fault (.exc m)) :
    ∃ t, ClaudeCodeDemo.run_all_demos true units = .completed t units.length ∧
      t.successful = 0 ∧ t.invoked = units.map WorkUnit.label := by
  have hni : ∀ u ∈ units, u.outcome ≠ .fault .interrupt := by
    intro u hu
    rcases h u hu with h1 | ⟨m, h2⟩
    · rw [h1]; intro hc; cases hc
    · rw [h2]; intro hc; cases hc
  have hcount : countSucc units = 0 := by
    rw [countSucc, List.countP_eq_zero]
    intro u hu
    rcases h u hu with h1 | ⟨m, h2⟩
    · simp [h1]
    · simp [h2]
  exact ⟨_, cc_run_eq units hni, hcount, rfl⟩

/-- Witness instantiating C5 at a batch of one False-returning unit and one
raising unit. -/
theorem c5_witness :
    ∃ t, ClaudeCodeDemo.run_all_demos true
        [⟨"A", [], .ok false⟩, ⟨"B", [], .fault (.exc "boom")⟩] =
      .completed t 2 ∧ t.successful = 0 ∧ t.invoked = ["A", "B"] := by
  have h := c5_all_fail_count_zero
    [⟨"A", [], .ok false⟩, ⟨"B", [], .fault (.exc "boom")⟩]
    (by intro u hu; fin_cases hu
        · exact Or.inl rfl
        · exact Or.inr ⟨"boom", rfl⟩)
  simpa using h

theorem cc_run_interrupt (p q : List WorkUnit) (u : WorkUnit)
    (hp : ∀ v ∈ p, v.outcome ≠ .fault .interrupt)
    (hu : u.outcome = .fault .interrupt) :
    ClaudeCodeDemo.run_all_demos true (p ++ u :: q) = .interrupted
      ⟨p.map WorkUnit.label ++ [u.label],
       ["Claude API Demo Starting...", sepLine, "✓ Anthropic SDK available",
        "✓ API key configured from .env file", "✓ Claude CLI is installed"] ++
         (p.map unitOutput).flatten ++ u.printed,
       countSucc p⟩ := by
  simp only [ClaudeCodeDemo.run_all_demos, setup_api_key_out, if_true]
  rw [runLoop_interrupt_at p q u _ hp hu]
  simp [List.append_assoc]

/-- C6: whenever the key is found and no interrupt is delivered, and no
operation itself prints a summary-shaped line, the run output of
run_all_demos contains exactly one summary line; it is the last line
printed and reads the success count over the batch length. With the empty
batch this gives a lone "Completed 0/0 demos successfully!" line and the
run completes without any fault. -/
theorem c6_single_summary_line (units : List WorkUnit)
    (hni : ∀ u ∈ units, u.outcome ≠ .fault .interrupt)
    (hop : ∀ u ∈ units, ∀ l ∈ u.printed, isSummaryLine l = false) :
    ∃ out, ClaudeCodeDemo.run_all_demos true units =
        .completed ⟨units.map WorkUnit.label, out, countSucc units⟩ units.length ∧
      out.countP isSummaryLine = 1 ∧
      out.getLast? = some (summaryLine (countSucc units) units.length) := by
  refine ⟨_, cc_run_eq units hni, ?_, ?_⟩
  · rw [List.countP_append, List.countP_append, countP_summary_flatten units hop]
    have h1 : List.countP isSummaryLine
        ["Claude API Demo Starting...", sepLine, "✓ Anthropic SDK available",
         "✓ API key configured from .env file", "✓ Claude CLI is installed"] = 0 := by
      decide
    have h0 : isSummaryLine ("\n" ++ sepLine) = false := by decide
    have h2 : List.countP isSummaryLine
        ["\n" ++ sepLine, summaryLine (countSucc units) units.length] = 1 := by
      simp [List.countP_cons, h0, isSummaryLine_summaryLine]
    rw [h1, h2]
  · have hsplit :
        (["Claude API Demo Starting...", sepLine, "✓ Anthropic SDK available",
          "✓ API key configured from .env file", "✓ Claude CLI is installed"] ++
          (units.map unitOutput).flatten ++
          ["\n" ++ sepLine, summaryLine (countSucc units) units.length]) =
        (["Claude API Demo Starting...", sepLine, "✓ Anthropic SDK available",
          "✓ API key configured from .env file", "✓ Claude CLI is installed"] ++
          (units.map unitOutput).flatten ++ ["\n" ++ sepLine]) ++
          [summaryLine (countSucc units) units.length] := by
      simp [List.append_assoc]
    rw [hsplit, List.getLast?_concat]

/-- Witness instantiating C6 at the empty batch: the run completes with the
lone summary "Completed 0/0 demos successfully!". -/
theorem c6_witness :
    ∃ out, ClaudeCodeDemo.run_all_demos true [] =
        .completed ⟨[], out, 0⟩ 0 ∧
      out.countP isSummaryLine = 1 ∧
      out.getLast? = some (summaryLine 0 0) := by
  have h := c6_single_summary_line [] (by simp) (by simp)
  simpa [countSucc] using h

/-- C7: on the four-unit scenario A returns True, B raises, C returns
False, D returns True, the runner invokes A, B, C, D in that order, prints
the tagged failure diagnostic for B, and reports "Completed 2/4 demos
successfully!"; a False return and a raise both contribute zero to the
tally. -/
theorem c7_mixed_scenario :
    ClaudeCodeDemo.run_all_demos true
        [⟨"A", [], .ok true⟩, ⟨"B", [], .fault (.exc "boom")⟩,
         ⟨"C", [], .ok false⟩, ⟨"D", [], .ok true⟩] =
      .completed
        ⟨["A", "B", "C", "D"],
         ["Claude API Demo Starting...", sepLine, "✓ Anthropic SDK available",
          "✓ API key configured from .env file", "✓ Claude CLI is installed",
          "❌ B demo failed: boom", "\n" ++ sepLine,
          "Completed 2/4 demos successfully!"],
         2⟩ 4 ∧
    countSucc [⟨"B", [], .fault (.exc "boom")⟩] = countSucc [⟨"C", [], .ok false⟩] ∧
    countSucc [⟨"C", [], .ok false⟩] = 0 := by decide

/-- C8: a KeyboardInterrupt raised while unit u runs is not contained at
the unit boundary: the runner result is the interrupted one, no unit after
u is invoked, no summary line appears anywhere in the output, and main
prints the interruption notice as its final line instead. -/
theorem c8_interrupt_aborts_run (p q : List WorkUnit) (u : WorkUnit)
    (hu : u.outcome = .fault .interrupt)
    (hp : ∀ v ∈ p, v.outcome ≠ .fault .interrupt)
    (hpo : ∀ v ∈ p, ∀ l ∈ v.printed, isSummaryLine l = false)
    (huo : ∀ l ∈ u.printed, isSummaryLine l = false) :
    ∃ t, ClaudeCodeDemo.run_all_demos true (p ++ u :: q) = .interrupted t ∧
      t.invoked = p.map WorkUnit.label ++ [u.label] ∧
      t.output.countP isSummaryLine = 0 ∧
      ClaudeCodeDemo.main true (p ++ u :: q) =
        t.output ++ ["\n\nDemo interrupted by user"] := by
  refine ⟨_, cc_run_interrupt p q u hp hu, rfl, ?_, ?_⟩
  · rw [List.countP_append, List.countP_append, countP_summary_flatten p hpo]
    have h1 : List.countP isSummaryLine
        ["Claude API Demo Starting...", sepLine, "✓ Anthropic SDK available",
         "✓ API key configured from .env file", "✓ Claude CLI is installed"] = 0 := by
      decide
    have h2 : List.countP isSummaryLine u.printed = 0 := by
      rw [List.countP_eq_zero]
      intro a ha
      simp [huo a ha]
    rw [h1, h2]
  · simp only [ClaudeCodeDemo.main, cc_run_interrupt p q u hp hu]

/-- Witness instantiating C8: the interrupt arrives at the second of three
units; the third is never invoked and the notice is printed. -/
theorem c8_witness :
    ∃ t, ClaudeCodeDemo.run_all_demos true
        ([⟨"A", [], .ok true⟩] ++ ⟨"I", [], .fault .interrupt⟩ :: [⟨"Z", [], .ok true⟩]) =
      .interrupted t ∧
      t.invoked = ["A", "I"] ∧
      t.output.countP isSummaryLine = 0 ∧
      ClaudeCodeDemo.main true
          ([⟨"A", [], .ok true⟩] ++ ⟨"I", [], .fault .interrupt⟩ :: [⟨"Z", [], .ok true⟩]) =
        t.output ++ ["\n\nDemo interrupted by user"] := by
  have h := c8_interrupt_aborts_run [⟨"A", [], .ok true⟩] [⟨"Z", [], .ok true⟩]
    ⟨"I", [], .fault .interrupt⟩ rfl (by decide) (by simp) (by simp)
  simpa using h

/-- C9 as stated fails on the code: in the run consisting of the Hello
World demo whose API call raises and is caught internally (the demo then
returns False, claudeCodeDemo.py:59-61), the unit is counted as failed but
no printed line both carries the failure marker and names the label: the
demo prints the generic "❌ Error: boom" without its label, and the outer
runner prints nothing for a False return. -/
theorem c9_counterexample :
    runLoop initialTrace [hwFailUnit] =
      .completed ⟨["Hello World"],
        ["\n=== Demo 1: Hello World ===", "❌ Error: boom"], 0⟩ ∧
    (["\n=== Demo 1: Hello World ===", "❌ Error: boom"].all
      (fun l => !(containsSub l "❌" && containsSub l "Hello World"))) = true := by
  decide

/-- C9 amended: every unit that fails by raising an uncaught ordinary
exception gets a runner-printed diagnostic naming its label; a unit that
fails by returning False only contributes the lines its own operation
printed, which reach the output unchanged (so the failure is not silent
when the operation printed anything) but need not name the label. -/
theorem c9_label_diagnostics_amended (units : List WorkUnit)
    (h : ∀ u ∈ units, u.outcome ≠ .fault .interrupt) :
    ∃ t, runLoop initialTrace units = .completed t ∧
      (∀ u ∈ units, ∀ m, u.outcome = .fault (.exc m) → diagLine u.label m ∈ t.output) ∧
      (∀ u ∈ units, ∀ l ∈ u.printed, l ∈ t.output) := by
  refine ⟨_, runLoop_eq_completed units h initialTrace, ?_, ?_⟩
  · intro u hu m hm
    simp only [initialTrace, List.nil_append]
    exact List.mem_flatten.mpr
      ⟨unitOutput u, List.mem_map_of_mem _ hu, by simp [unitOutput, hm]⟩
  · intro u hu l hl
    simp only [initialTrace, List.nil_append]
    exact List.mem_flatten.mpr
      ⟨unitOutput u, List.mem_map_of_mem _ hu, by simp [unitOutput, hl]⟩

/-- Witness instantiating the amended C9: a False-returning Hello World
unit next to a raising unit B; the raising unit gets its tagged diagnostic
and the Hello World error line reaches the output. -/
theorem c9_amended_witness :
    ∃ t, runLoop initialTrace [hwFailUnit, ⟨"B", [], .fault (.exc "x")⟩] =
        .completed t ∧
      diagLine "B" "x" ∈ t.output ∧
      "❌ Error: boom" ∈ t.output := by
  obtain ⟨t, h1, h2, h3⟩ :=
    c9_label_diagnostics_amended [hwFailUnit, ⟨"B", [], .fault (.exc "x")⟩] (by decide)
  refine ⟨t, h1, ?_, ?_⟩
  · exact h2 ⟨"B", [], .fault (.exc "x")⟩ (by simp) "x" rfl
  · exact h3 hwFailUnit (by simp) _ (by simp [hwFailUnit, demo_hello_world])

/-- C10: when setup_api_key finds no key, both runners return before the
demos list is touched: no unit is invoked, the output holds only the
startup and complaint lines, no summary line is printed, and the
interruption notice is absent too, so the run ends with neither a report
nor a notice. -/
theorem c10_missing_key_early_return (units : List WorkUnit) :
    ClaudeCodeDemo.run_all_demos false units =
      .earlyReturn ⟨[], ["Claude API Demo Starting...", sepLine,
        "✓ Anthropic SDK available", "❌ No API key found in .env file",
        "Please set ANTHROPIC_API_KEY in ib_invoice_ops/.env"], 0⟩ ∧
    SimpleClaudeDemo.run_all_demos false units =
      .earlyReturn ⟨[], ["Simple Claude API Demo Starting...", sepLine,
        "❌ No API key found in .env file",
        "Please set ANTHROPIC_API_KEY in .env"], 0⟩ ∧
    (ClaudeCodeDemo.main false units).countP isSummaryLine = 0 ∧
    "\n\nDemo interrupted by user" ∉ ClaudeCodeDemo.main false units := by
  have hm : ClaudeCodeDemo.main false units =
      ["Claude API Demo Starting...", sepLine, "✓ Anthropic SDK available",
       "❌ No API key found in .env file",
       "Please set ANTHROPIC_API_KEY in ib_invoice_ops/.env"] := rfl
  refine ⟨rfl, rfl, ?_, ?_⟩
  · rw [hm]; decide
  · rw [hm]; decide
